import Mathlib

/-!
Shallow embedding of the lead-generation dashboard (`src/app.py`).

The one piece of domain logic is `calculate_propensity_score` (app.py
lines 84-124): five additive rules over a lead record, a cap at 100, and
a comma-joined reason string.  Surrounding glue embedded here as well:
the recommendation tiering (lines 191-196) and the minimum-score filter
(line 142).
-/

/-- A lead record, as in the dummy-data dictionaries of app.py.
All ten fields are present; string fields are plain strings. -/
structure Lead where
  name : String
  title : String
  company : String
  location : String
  hq_location : String
  funding_series : String
  tech_stack : String
  published_paper : Bool
  email : String
  linkedin : String
deriving Repr, DecidableEq

/-- Python's `needle in hay` on character lists: `needle` occurs as a
contiguous sublist of `hay`. -/
def charsContains : List Char → List Char → Bool
  | needle, [] => needle.isEmpty
  | needle, c :: t => needle.isPrefixOf (c :: t) || charsContains needle t

/-- Python's substring test `sub in s`. -/
def strContains (s sub : String) : Bool :=
  charsContains sub.toList s.toList

/-- Python's `str.lower()`: lower-case every character. -/
def strLower (s : String) : String :=
  String.mk (s.data.map Char.toLower)

/-- app.py line 90: the role keywords. -/
def target_roles : List String :=
  ["toxicology", "safety", "hepatic", "3d", "preclinical", "vp", "director", "head"]

/-- app.py line 109: the hub names. -/
def hubs : List String :=
  ["Boston", "Cambridge", "San Francisco", "Bay Area", "Basel", "London"]

/-- app.py line 91: `any(keyword in row['Title'].lower() for keyword in target_roles)`. -/
def roleFit (row : Lead) : Bool :=
  target_roles.any (fun keyword => strContains (strLower row.title) keyword)

/-- app.py line 97: `row['Funding_Series'] in ['Series A', 'Series B']`. -/
def fundingFit (row : Lead) : Bool :=
  row.funding_series == "Series A" || row.funding_series == "Series B"

/-- app.py line 103: `"in-vitro" in row['Tech_Stack']`. -/
def techFit (row : Lead) : Bool :=
  strContains row.tech_stack "in-vitro"

/-- app.py line 111:
`any(hub in row['Location'] for hub in hubs) or any(hub in row['HQ_Location'] for hub in hubs)`. -/
def locationFit (row : Lead) : Bool :=
  hubs.any (fun hub => strContains row.location hub)
    || hubs.any (fun hub => strContains row.hq_location hub)

/-- app.py line 117: `if row['Published_Paper']:`. -/
def pubFit (row : Lead) : Bool :=
  row.published_paper

/-- app.py lines 84-122, before the final join: the mutable `score` and
`reasons` accumulators threaded through the five rules, then the cap
`score = min(score, 100)`. -/
def scoreReasons (row : Lead) : Nat × List String :=
  let score : Nat := 0
  let reasons : List String := []
  let (score, reasons) :=
    if roleFit row then (score + 30, reasons ++ ["High Fit Role (+30)"])
    else (score, reasons)
  let (score, reasons) :=
    if fundingFit row then (score + 20, reasons ++ ["Recent Funding Series A/B (+20)"])
    else (score, reasons)
  let (score, reasons) :=
    if techFit row then (score + 15, reasons ++ ["Uses Similar Tech (+15)"])
    else (score, reasons)
  let (score, reasons) :=
    if locationFit row then (score + 10, reasons ++ ["Located in BioHub (+10)"])
    else (score, reasons)
  let (score, reasons) :=
    if pubFit row then (score + 25, reasons ++ ["Published Relevant Paper (+25)"])
    else (score, reasons)
  (min score 100, reasons)

/-- app.py lines 84-124: the full scorer, returning the capped score and
`", ".join(reasons)` (line 124 joins the reasons into one string). -/
def calculate_propensity_score (row : Lead) : Nat × String :=
  let (score, reasons) := scoreReasons row
  (score, String.intercalate ", " reasons)

/-- Sum of the points of exactly the triggered rules (spec-shaped closed
form of the accumulated score before the cap). -/
def rulePoints (row : Lead) : Nat :=
  (if roleFit row then 30 else 0) + (if fundingFit row then 20 else 0)
    + (if techFit row then 15 else 0) + (if locationFit row then 10 else 0)
    + (if pubFit row then 25 else 0)

/-- One reason string per triggered rule, in the fixed evaluation order
Role, Funding, Tech, Location, Publication (spec-shaped closed form of
the accumulated reasons list). -/
def ruleReasons (row : Lead) : List String :=
  (if roleFit row then ["High Fit Role (+30)"] else [])
    ++ (if fundingFit row then ["Recent Funding Series A/B (+20)"] else [])
    ++ (if techFit row then ["Uses Similar Tech (+15)"] else [])
    ++ (if locationFit row then ["Located in BioHub (+10)"] else [])
    ++ (if pubFit row then ["Published Relevant Paper (+25)"] else [])

/-- Number of triggered rules. -/
def triggeredCount (row : Lead) : Nat :=
  (if roleFit row then 1 else 0) + (if fundingFit row then 1 else 0)
    + (if techFit row then 1 else 0) + (if locationFit row then 1 else 0)
    + (if pubFit row then 1 else 0)

/-- app.py lines 191-196: the display recommendation, an if/elif/else
chain on the propensity score. -/
def recommendation (score : Nat) : String :=
  if score ≥ 80 then "High Priority - Contact Immediately"
  else if score ≥ 50 then "Medium Priority - Nurture Campaign"
  else "Low Priority - Do Not Contact"

/-- app.py line 142: `filtered_df = df[df['Propensity_Score'] >= min_score]`,
modelled as a filter on the list of leads by their computed score. -/
def filteredLeads (leads : List Lead) (min_score : Nat) : List Lead :=
  leads.filter (fun row => decide ((calculate_propensity_score row).1 ≥ min_score))

/-- app.py lines 17-28: the first dummy-data record. -/
def sarahChen : Lead :=
  { name := "Dr. Sarah Chen", title := "Director of Toxicology",
    company := "BioSafe Therapeutics", location := "Cambridge, MA",
    hq_location := "Cambridge, MA", funding_series := "Series B",
    tech_stack := "Uses in-vitro models", published_paper := true,
    email := "sarah.c@biosafe.com", linkedin := "linkedin.com/in/sarahchen" }

/-- app.py lines 29-40: the second dummy-data record. -/
def michaelRoss : Lead :=
  { name := "Michael Ross", title := "Head of Safety Assessment",
    company := "NovaPharma", location := "San Francisco, CA",
    hq_location := "San Francisco, CA", funding_series := "Series A",
    tech_stack := "Unknown", published_paper := false,
    email := "mross@novapharma.com", linkedin := "linkedin.com/in/mross" }

/-- app.py lines 41-52: the third dummy-data record. -/
def jessicaSmith : Lead :=
  { name := "Jessica Smith", title := "Junior Scientist",
    company := "OldSchool Meds", location := "Austin, TX",
    hq_location := "New York, NY", funding_series := "Public",
    tech_stack := "None", published_paper := false,
    email := "jessica@oldschool.com", linkedin := "linkedin.com/in/jsmith" }

/-- app.py lines 53-64: the fourth dummy-data record. -/
def davidKim : Lead :=
  { name := "David Kim", title := "VP Preclinical", company := "HepatoLogic",
    location := "Remote (CO)", hq_location := "Boston, MA",
    funding_series := "Series B", tech_stack := "Uses in-vitro models",
    published_paper := true, email := "d.kim@hepatologic.io",
    linkedin := "linkedin.com/in/dkim" }

/-- A lead record whose fields may be missing or null (`none`), used to study
the scorer's behaviour on ill-filled records. -/
structure LeadN where
  name : Option String
  title : Option String
  company : Option String
  location : Option String
  hq_location : Option String
  funding_series : Option String
  tech_stack : Option String
  published_paper : Option Bool
  email : Option String
  linkedin : Option String
deriving Repr, DecidableEq

/-- app.py line 97 on a possibly-null field: `None in ['Series A', 'Series B']`
is simply `False` in Python, no exception. -/
def fundingFitN (f : Option String) : Bool :=
  match f with
  | some s => s == "Series A" || s == "Series B"
  | none => false

/-- Shared tail of `calcScoreN`: rule 5 (`if row['Published_Paper']:`, where
Python treats `None` as falsy), then the cap and the join of app.py
lines 122-124. -/
def finishScoreN (published_paper : Option Bool) (score : Nat)
    (reasons : List String) : Nat × String :=
  let (score, reasons) :=
    if published_paper.getD false
    then (score + 25, reasons ++ ["Published Relevant Paper (+25)"])
    else (score, reasons)
  (min score 100, String.intercalate ", " reasons)

/-- `calculate_propensity_score` applied to a record with possibly-null
fields, with Python's exception behaviour made explicit: `none` is a raised
exception.  `row['Title'].lower()` (line 91) raises `AttributeError` on a
null title; `"in-vitro" in row['Tech_Stack']` (line 103) and
`hub in row['Location']` (line 111) raise `TypeError` on a null operand;
the `or` on line 111 short-circuits, so `HQ_Location` is only inspected
when no hub occurs in `Location`; `None in [...]` (line 97) and
`if None:` (line 117) do not raise. -/
def calcScoreN (row : LeadN) : Option (Nat × String) :=
  match row.title with
  | none => none
  | some title =>
    let (score, reasons) : Nat × List String :=
      if target_roles.any (fun keyword => strContains (strLower title) keyword)
      then (0 + 30, [] ++ ["High Fit Role (+30)"])
      else (0, [])
    let (score, reasons) :=
      if fundingFitN row.funding_series
      then (score + 20, reasons ++ ["Recent Funding Series A/B (+20)"])
      else (score, reasons)
    match row.tech_stack with
    | none => none
    | some tech =>
      let (score, reasons) :=
        if strContains tech "in-vitro"
        then (score + 15, reasons ++ ["Uses Similar Tech (+15)"])
        else (score, reasons)
      match row.location with
      | none => none
      | some loc =>
        if hubs.any (fun hub => strContains loc hub) then
          some (finishScoreN row.published_paper (score + 10)
            (reasons ++ ["Located in BioHub (+10)"]))
        else
          match row.hq_location with
          | none => none
          | some hq =>
            let (score, reasons) :=
              if hubs.any (fun hub => strContains hq hub)
              then (score + 10, reasons ++ ["Located in BioHub (+10)"])
              else (score, reasons)
            some (finishScoreN row.published_paper score reasons)

/-- Key closed form: the accumulator-style scorer equals the capped sum of
triggered points paired with the ordered triggered-reason list. -/
theorem scoreReasons_eq (row : Lead) :
    scoreReasons row = (min (rulePoints row) 100, ruleReasons row) := by
  unfold scoreReasons rulePoints ruleReasons
  cases roleFit row <;> cases fundingFit row <;> cases techFit row <;>
    cases locationFit row <;> cases pubFit row <;> simp

/-- The full scorer, in closed form. -/
theorem calc_eq (row : Lead) :
    calculate_propensity_score row =
      (min (rulePoints row) 100, String.intercalate ", " (ruleReasons row)) := by
  unfold calculate_propensity_score
  rw [scoreReasons_eq]

/-- The raw sum of triggered points is bounded by 100. -/
theorem rulePoints_le_100 (row : Lead) : rulePoints row ≤ 100 := by
  unfold rulePoints
  cases roleFit row <;> cases fundingFit row <;> cases techFit row <;>
    cases locationFit row <;> cases pubFit row <;> simp

/-- The ordered reason list has one entry per triggered rule. -/
theorem ruleReasons_length (row : Lead) :
    (ruleReasons row).length = triggeredCount row := by
  unfold ruleReasons triggeredCount
  cases roleFit row <;> cases fundingFit row <;> cases techFit row <;>
    cases locationFit row <;> cases pubFit row <;> simp

/-- C1: for every Lead, the propensity score equals the sum of the points of
exactly the triggered rules (Role +30, Funding +20, Tech +15, Location +10,
Publication +25) capped at 100, and the breakdown holds exactly one reason
string per triggered rule, in the fixed order Role, Funding, Tech, Location,
Publication. -/
theorem C1_score_is_capped_sum_and_breakdown_ordered (row : Lead) :
    (scoreReasons row).1 = min (rulePoints row) 100 ∧
    (scoreReasons row).2 = ruleReasons row ∧
    (scoreReasons row).2.length = triggeredCount row ∧
    calculate_propensity_score row =
      (min (rulePoints row) 100, String.intercalate ", " (ruleReasons row)) := by
  refine ⟨?_, ?_, ?_, calc_eq row⟩ <;> rw [scoreReasons_eq]
  exact ruleReasons_length row

/-- C2: for every Lead, the propensity score is an integer with
`0 <= score <= 100`. -/
theorem C2_score_in_bounds (row : Lead) :
    0 ≤ (calculate_propensity_score row).1 ∧
      (calculate_propensity_score row).1 ≤ 100 := by
  rw [calc_eq]
  exact ⟨Nat.zero_le _, Nat.min_le_right _ _⟩

/-- C7: the raw (uncapped) sum of triggered points never exceeds 100, equals
100 exactly when all five rules trigger, and the explicit cap
`min(score, 100)` never changes the result: the capped score equals the raw
sum on every input. -/
theorem C7_cap_never_binds (row : Lead) :
    rulePoints row ≤ 100 ∧
    (rulePoints row = 100 ↔
      roleFit row = true ∧ fundingFit row = true ∧ techFit row = true ∧
        locationFit row = true ∧ pubFit row = true) ∧
    min (rulePoints row) 100 = rulePoints row ∧
    (calculate_propensity_score row).1 = rulePoints row := by
  have hle := rulePoints_le_100 row
  have hmin : min (rulePoints row) 100 = rulePoints row := Nat.min_eq_left hle
  refine ⟨hle, ?_, hmin, by rw [calc_eq]; exact hmin⟩
  unfold rulePoints
  cases roleFit row <;> cases fundingFit row <;> cases techFit row <;>
    cases locationFit row <;> cases pubFit row <;> simp

/-- C8: the display tiering is a pure function of the score alone:
`score >= 80` gives High Priority, `50 <= score < 80` gives Medium
Priority, and `score < 50` gives Low Priority. -/
theorem C8_tiering (s : Nat) :
    (80 ≤ s → recommendation s = "High Priority - Contact Immediately") ∧
    (50 ≤ s → s < 80 → recommendation s = "Medium Priority - Nurture Campaign") ∧
    (s < 50 → recommendation s = "Low Priority - Do Not Contact") := by
  unfold recommendation
  refine ⟨fun h1 => ?_, fun h1 h2 => ?_, fun h1 => ?_⟩
  · rw [if_pos h1]
  · rw [if_neg (by omega), if_pos h1]
  · rw [if_neg (by omega), if_neg (by omega)]

/-- C8 witness: the boundary scores 80, 79 and 49 map to High, Medium and
Low respectively. -/
theorem C8_tiering_witness :
    recommendation 80 = "High Priority - Contact Immediately" ∧
    recommendation 79 = "Medium Priority - Nurture Campaign" ∧
    recommendation 49 = "Low Priority - Do Not Contact" :=
  ⟨(C8_tiering 80).1 (by decide), (C8_tiering 79).2.1 (by decide) (by decide),
    (C8_tiering 49).2.2 (by decide)⟩

/-- C9: for every collection of leads and every threshold, the filter keeps
exactly the leads whose score is at least the threshold, and the filtered
collection is a sublist (hence a subset) of the full collection. -/
theorem C9_threshold_filter (leads : List Lead) (T : Nat) :
    (∀ row, row ∈ filteredLeads leads T ↔
      row ∈ leads ∧ T ≤ (calculate_propensity_score row).1) ∧
    (filteredLeads leads T).Sublist leads := by
  constructor
  · intro row
    unfold filteredLeads
    simp [List.mem_filter]
  · exact List.filter_sublist _

/-- C10: the scorer reads only title, funding_series, tech_stack, location,
hq_location and published_paper: two leads agreeing on those six fields get
the same (score, breakdown) result, whatever their name, company, email and
linkedin. -/
theorem C10_scoring_fields_only (r1 r2 : Lead)
    (ht : r1.title = r2.title) (hf : r1.funding_series = r2.funding_series)
    (hte : r1.tech_stack = r2.tech_stack) (hl : r1.location = r2.location)
    (hh : r1.hq_location = r2.hq_location)
    (hp : r1.published_paper = r2.published_paper) :
    calculate_propensity_score r1 = calculate_propensity_score r2 := by
  unfold calculate_propensity_score scoreReasons roleFit fundingFit techFit
    locationFit pubFit
  rw [ht, hf, hte, hl, hh, hp]

/-- C10 witness: David Kim with scrambled name, company, email and linkedin
scores identically. -/
theorem C10_scoring_fields_only_witness :
    calculate_propensity_score davidKim =
      calculate_propensity_score
        { davidKim with
            name := "D. K.", company := "Other Co",
            email := "x@y.z", linkedin := "no-profile" } ∧
    davidKim.name ≠ "D. K." :=
  ⟨C10_scoring_fields_only _ _ rfl rfl rfl rfl rfl rfl, by decide⟩

/-- C5: the funding rule triggers exactly when `funding_series` equals the
string "Series A" or "Series B" (string equality, not substring); a lead
with funding_series = "Series A Extension" does not trigger it and gets no
funding reason. -/
theorem C5_funding_exact_match (row : Lead) :
    (fundingFit row = true ↔
      row.funding_series = "Series A" ∨ row.funding_series = "Series B") ∧
    (row.funding_series = "Series A Extension" →
      fundingFit row = false ∧
        "Recent Funding Series A/B (+20)" ∉ (scoreReasons row).2) := by
  constructor
  · unfold fundingFit
    simp
  · intro h
    have hf : fundingFit row = false := by
      unfold fundingFit
      rw [h]
      decide
    refine ⟨hf, ?_⟩
    rw [scoreReasons_eq]
    unfold ruleReasons
    rw [hf]
    cases roleFit row <;> cases techFit row <;> cases locationFit row <;>
      cases pubFit row <;> simp

/-- C5 witness: a concrete lead with funding_series = "Series A Extension"
does not trigger the funding rule. -/
theorem C5_funding_exact_match_witness :
    fundingFit { jessicaSmith with funding_series := "Series A Extension" } = false ∧
    "Recent Funding Series A/B (+20)" ∉
      (scoreReasons { jessicaSmith with funding_series := "Series A Extension" }).2 :=
  (C5_funding_exact_match _).2 rfl

/-- Sum of the points of the four rules other than the location rule. -/
def pointsWithoutLocation (row : Lead) : Nat :=
  (if roleFit row then 30 else 0) + (if fundingFit row then 20 else 0)
    + (if techFit row then 15 else 0) + (if pubFit row then 25 else 0)

/-- C6: the location rule triggers exactly when location or hq_location has
one of the hub names as a case-sensitive substring; when it triggers it
contributes exactly +10 and exactly one "Located in BioHub (+10)" reason,
however many fields or hub names match. -/
theorem C6_location_rule (row : Lead) :
    (locationFit row = true ↔
      ∃ hub ∈ hubs, strContains row.location hub = true ∨
        strContains row.hq_location hub = true) ∧
    (scoreReasons row).2.count "Located in BioHub (+10)" =
      (if locationFit row then 1 else 0) ∧
    (scoreReasons row).1 =
      min (pointsWithoutLocation row + (if locationFit row then 10 else 0)) 100 := by
  refine ⟨?_, ?_, ?_⟩
  · unfold locationFit
    simp only [List.any_eq_true, Bool.or_eq_true]
    constructor
    · rintro (⟨hub, hmem, hx⟩ | ⟨hub, hmem, hx⟩)
      · exact ⟨hub, hmem, Or.inl hx⟩
      · exact ⟨hub, hmem, Or.inr hx⟩
    · rintro ⟨hub, hmem, hx | hx⟩
      · exact Or.inl ⟨hub, hmem, hx⟩
      · exact Or.inr ⟨hub, hmem, hx⟩
  · rw [scoreReasons_eq]
    unfold ruleReasons
    cases roleFit row <;> cases fundingFit row <;> cases techFit row <;>
      cases locationFit row <;> cases pubFit row <;> simp
  · rw [scoreReasons_eq]
    unfold rulePoints pointsWithoutLocation
    cases locationFit row <;> simp [Nat.add_right_comm]

/-- C4 counterexample: on the first fixture lead the scorer itself returns
the breakdown as ONE comma-pre-joined string (app.py line 124 runs
`", ".join(reasons)` inside the scorer), not as the list of five reason
strings the claim describes; the list exists only internally. -/
theorem C4_counterexample :
    (calculate_propensity_score sarahChen).2 =
      "High Fit Role (+30), Recent Funding Series A/B (+20), Uses Similar Tech (+15), Located in BioHub (+10), Published Relevant Paper (+25)" ∧
    (scoreReasons sarahChen).2 =
      ["High Fit Role (+30)", "Recent Funding Series A/B (+20)",
        "Uses Similar Tech (+15)", "Located in BioHub (+10)",
        "Published Relevant Paper (+25)"] ∧
    (calculate_propensity_score sarahChen).2 =
      String.intercalate ", " (scoreReasons sarahChen).2 := by
  exact ⟨rfl, rfl, rfl⟩

/-- C4 amended: the scorer builds an ordered internal list with one reason
per triggered rule, but returns it pre-joined with ", " as a single string;
the join happens inside the scorer, not at display time. -/
theorem C4_breakdown_prejoined (row : Lead) :
    (calculate_propensity_score row).2 =
      String.intercalate ", " (scoreReasons row).2 ∧
    (scoreReasons row).2 = ruleReasons row := by
  constructor
  · unfold calculate_propensity_score
    rw [scoreReasons_eq]
  · rw [scoreReasons_eq]

/-- A well-formed lead record whose title is null and whose other fields are
present. -/
def nullTitleLead : LeadN :=
  { name := some "N. Ull", title := none, company := some "NullCo",
    location := some "Austin, TX", hq_location := some "Austin, TX",
    funding_series := some "Seed", tech_stack := some "None",
    published_paper := some false, email := some "n@u.example",
    linkedin := some "x" }

/-- The third fixture lead with null funding_series and published_paper,
all string fields present. -/
def jessicaSmithN : LeadN :=
  { name := some "Jessica Smith", title := some "Junior Scientist",
    company := some "OldSchool Meds", location := some "Austin, TX",
    hq_location := some "New York, NY", funding_series := none,
    tech_stack := some "None", published_paper := none,
    email := some "jessica@oldschool.com",
    linkedin := some "linkedin.com/in/jsmith" }

/-- C3 counterexample: on a lead whose title is null the scorer raises
(`row['Title'].lower()` on line 91 is an AttributeError, modelled as `none`)
instead of treating the field as the empty string: with the title coerced
to `""` the scorer would have succeeded with score 0. -/
theorem C3_counterexample :
    calcScoreN nullTitleLead = none ∧
    calcScoreN { nullTitleLead with title := some "" } = some (0, "") :=
  ⟨rfl, rfl⟩

/-- C3 amended: the scorer is total on leads whose title, tech_stack,
location and hq_location are present; on such leads a null funding_series
is treated as matching neither funding string and a null published_paper is
treated as False, and the result agrees with the plain scorer on the
correspondingly defaulted record. -/
theorem C3_total_when_strings_present (row : LeadN) (t te l h : String)
    (ht : row.title = some t) (hte : row.tech_stack = some te)
    (hl : row.location = some l) (hh : row.hq_location = some h) :
    calcScoreN row =
      some (calculate_propensity_score
        { name := row.name.getD "", title := t, company := row.company.getD "",
          location := l, hq_location := h,
          funding_series := row.funding_series.getD "", tech_stack := te,
          published_paper := row.published_paper.getD false,
          email := row.email.getD "", linkedin := row.linkedin.getD "" }) := by
  obtain ⟨n, ti, c, lo, hqv, fu, ts, pu, em, li⟩ := row
  simp only at ht hte hl hh
  subst ht hte hl hh
  rcases Bool.eq_false_or_eq_true
      (target_roles.any fun keyword => strContains (strLower t) keyword) with hA | hA <;>
    rcases Bool.eq_false_or_eq_true (strContains te "in-vitro") with hTe | hTe <;>
    rcases Bool.eq_false_or_eq_true (hubs.any fun hub => strContains l hub) with hL | hL <;>
    rcases Bool.eq_false_or_eq_true (hubs.any fun hub => strContains h hub) with hH | hH <;>
    cases fu <;> cases pu <;>
    simp [calcScoreN, calculate_propensity_score, scoreReasons, roleFit,
      fundingFit, techFit, locationFit, pubFit, finishScoreN, fundingFitN,
      hA, hTe, hL, hH]

/-- C3 witness: on the third fixture lead with null funding_series and null
published_paper but all string fields present, the scorer succeeds and
agrees with the plain scorer on the defaulted record. -/
theorem C3_total_when_strings_present_witness :
    calcScoreN jessicaSmithN =
      some (calculate_propensity_score
        { name := "Jessica Smith", title := "Junior Scientist",
          company := "OldSchool Meds", location := "Austin, TX",
          hq_location := "New York, NY", funding_series := "",
          tech_stack := "None", published_paper := false,
          email := "jessica@oldschool.com",
          linkedin := "linkedin.com/in/jsmith" }) :=
  C3_total_when_strings_present jessicaSmithN "Junior Scientist" "None"
    "Austin, TX" "New York, NY" rfl rfl rfl rfl
